import Mathlib

/-! Verification of the computational core of `app.py` (Diabetes ADA MX):
unit conversions, the 500/1800 bolus calculator, the ADA drug-recommendation
engine, the CKD-EPI 2021 eGFR formula and the patient-profile id generator.
Python float arithmetic is modelled exactly, over `ℚ` (or over `ℝ` where the
formula is transcendental); Python's `round` and `numpy.round` round half to
even. -/

/-- Round half to even, the rounding mode of Python's built-in `round` and of
`numpy.round`, on any linear ordered field with a floor function. -/
def roundHalfEven {α : Type} [LinearOrderedField α] [FloorRing α] (x : α) : ℤ :=
  if x - ⌊x⌋ < 1/2 then ⌊x⌋
  else if 1/2 < x - ⌊x⌋ then ⌊x⌋ + 1
  else if Even ⌊x⌋ then ⌊x⌋ else ⌊x⌋ + 1

/-- Python `round(x, 1)`: round to one decimal place. -/
def round1 {α : Type} [LinearOrderedField α] [FloorRing α] (x : α) : α :=
  (roundHalfEven (x * 10) : α) / 10

/-- `mgdl_to_mmoll` from `app.py`: `round(float(v) / 18.0, 1)` (numeric path;
the `except` branch only fires on non-numeric input). -/
def mgdl_to_mmoll (v : ℚ) : ℚ := round1 (v / 18)

/-- `mmoll_to_mgdl` from `app.py`: `round(float(v) * 18.0, 0)` (numeric path). -/
def mmoll_to_mgdl (v : ℚ) : ℚ := (roundHalfEven (v * 18) : ℚ)

/-- `to_mgdl_val` from `app.py`; `mmol` is `unidad == "mmol/L"`. -/
def to_mgdl_val (v : ℚ) (mmol : Bool) : ℚ := if mmol then mmoll_to_mgdl v else v

/-- The PRO-tab TDD (`app.py` line 737):
`tdd = tdd_man if tdd_man > 0 else round((0.5 if dx=="DM1" else 0.3) * peso, 1)`. -/
def tdd (tdd_man : ℚ) (dm1 : Bool) (peso : ℚ) : ℚ :=
  if 0 < tdd_man then tdd_man else round1 ((if dm1 then 0.5 else 0.3) * peso)

/-- The PRO-tab ICR derivation (`app.py` lines 742-743):
`if icr == 0: icr = round(500.0 / tdd, 1) if tdd > 0 else 0.0`. -/
def derive_icr (icr tdd : ℚ) : ℚ :=
  if icr = 0 then (if 0 < tdd then round1 (500 / tdd) else 0) else icr

/-- The PRO-tab CF derivation (`app.py` lines 744-745):
`if cf == 0: cf = round(1800.0 / tdd, 0) if tdd > 0 else 0.0`. -/
def derive_cf (cf tdd : ℚ) : ℚ :=
  if cf = 0 then (if 0 < tdd then (roundHalfEven (1800 / tdd) : ℚ) else 0) else cf

/-- The PRO-tab bolus dose (`app.py` lines 766-774): zero with a warning when
current glucose (mg/dL) is below 70, otherwise
`max(0, carbs/(icr if icr>0 else 1e9) + max(0, (g_act-g_obj)/(cf if cf>0 else 1e9)))`
rounded to the nearest half unit by `round(dosis_bolo * 2) / 2.0`. -/
def dosis_bolo (carbs icr cf g_act_mgdl g_obj_mgdl : ℚ) : ℚ :=
  if g_act_mgdl < 70 then 0
  else
    (roundHalfEven
      ((max 0 (carbs / (if 0 < icr then icr else 1e9)
        + max 0 ((g_act_mgdl - g_obj_mgdl) / (if 0 < cf then cf else 1e9)))) * 2) : ℚ) / 2

/-- Diagnosis selectbox: `["DM2", "DM1"]`. -/
inductive Dx where
  | DM2
  | DM1
  deriving DecidableEq

/-- The three UACR categories produced by `uacr_categoria` on numeric input. -/
inductive UacrCat where
  | A1
  | A2
  | A3
  deriving DecidableEq

/-- `uacr_categoria` from `app.py` (numeric path). -/
def uacr_categoria (v : ℚ) : UacrCat :=
  if v < 30 then UacrCat.A1 else if v < 300 then UacrCat.A2 else UacrCat.A3

/-- One constructor per distinct literal string that `recomendacion_farmacos`
can append to its `lines` list, in source order of the `append` sites. -/
inductive Recom where
  | dm1_basal_bolo
  | iniciar_insulina
  | ic_sglt2i
  | ascvd_glp1_sglt2i
  | obesidad_glp1
  | ckd_sglt2i
  | ckd_avanzada_glp1
  | albuminuria_ieca_ara2
  | metformina_plena
  | metformina_restringida
  | metformina_contraindicada
  | posprandial_glp1_bolo
  | bajo_riesgo_metformina_estilo
  deriving DecidableEq

/-- Python `o is not None and f(o)` for a float-or-None value. -/
def optPresentCmp (o : Option ℚ) (f : ℚ → Bool) : Bool :=
  match o with
  | none => false
  | some v => f v

/-- Python `o and f(o)` for a float-or-None value: `None` and `0.0` are falsy. -/
def optTruthyCmp (o : Option ℚ) (f : ℚ → Bool) : Bool :=
  match o with
  | none => false
  | some v => !(v == 0) && f v

/-- `umbral_pp` (`app.py` line 602): `pp_max if unidad_gluc == "mg/dL" else
mmoll_to_mgdl(pp_max)`. -/
def umbral_pp (mmol : Bool) (pp_max : ℚ) : ℚ :=
  if mmol then mmoll_to_mgdl pp_max else pp_max

/-- `recomendacion_farmacos` from `app.py` (lines 569-608), restricted to the
`lines` component (`just` never feeds back into `lines`; the `docente` flag
only affects `just`). Parameters after `imc` are the globals the function
reads: `uacr_cat`, `unidad_gluc` (as `mmol`), `pp_max`, `a1c_meta`. -/
def recomendacion_farmacos (dx : Dx) (a1c gl_ay gl_pp : Option ℚ) (egfr : ℚ)
    (ckd ascvd ic : Bool) (imc : Option ℚ) (uacr_cat : UacrCat)
    (mmol : Bool) (pp_max a1c_meta : ℚ) : List Recom :=
  if dx = Dx.DM1 then [Recom.dm1_basal_bolo]
  else
    (if optPresentCmp a1c (fun v => decide (10 < v))
        || optPresentCmp gl_ay (fun v => decide (300 ≤ v))
      then [Recom.iniciar_insulina] else []) ++
    (if ic then [Recom.ic_sglt2i] else []) ++
    (if ascvd then [Recom.ascvd_glp1_sglt2i] else []) ++
    (if optTruthyCmp imc (fun v => decide (30 ≤ v))
      then [Recom.obesidad_glp1] else []) ++
    (if ckd || decide (egfr < 60) then
      (if 20 ≤ egfr then [Recom.ckd_sglt2i] else [Recom.ckd_avanzada_glp1]) ++
      (if uacr_cat = UacrCat.A2 ∨ uacr_cat = UacrCat.A3
        then [Recom.albuminuria_ieca_ara2] else [])
     else []) ++
    (if 45 ≤ egfr then [Recom.metformina_plena]
     else if 30 ≤ egfr ∧ egfr < 45 then [Recom.metformina_restringida]
     else [Recom.metformina_contraindicada]) ++
    (if optTruthyCmp gl_pp (fun v => decide (umbral_pp mmol pp_max < v))
      then [Recom.posprandial_glp1_bolo] else []) ++
    (if !(ic || ascvd || ckd || decide (egfr < 60))
        && !(optTruthyCmp a1c (fun v => decide (a1c_meta < v))
          && optTruthyCmp gl_ay (fun v => decide (130 < v)))
      then [Recom.bajo_riesgo_metformina_estilo] else [])

/-- Python `str.isdigit` on a string, parametrized by the character class
`isdig` it consults: a character passes when its Unicode `Numeric_Type` is
`Decimal` (category `Nd`: ASCII `0`-`9`, ARABIC-INDIC digits, …) or `Digit`
(superscripts such as `'²'`, …). A string is `isdigit` when it is nonempty and
every character passes. -/
def isdigitStr (isdig : Char → Bool) (s : String) : Bool :=
  !s.data.isEmpty && s.data.all isdig

/-- Python `int(s)` on an `isdigit` string, parametrized by the digit-value
lookup `decVal` of the runtime: `decVal c = some d` exactly when `c` has
Unicode `Numeric_Type=Decimal` with value `d`; characters with
`Numeric_Type=Digit` only (such as `'²'`) are rejected by `int`, which raises
`ValueError` — modelled by the `none` result. -/
def strToNat (decVal : Char → Option ℕ) (s : String) : Option ℕ :=
  s.data.foldl
    (fun acc c =>
      match acc, decVal c with
      | some n, some d => some (10 * n + d)
      | _, _ => none)
    (some 0)

/-- The digit-value lookup of `int` restricted to the ASCII range: ASCII
decimal digits carry their value, every other character of that range raises
(`none`). -/
def decDigitVal (c : Char) : Option ℕ :=
  if c.isDigit then some (c.toNat - 48) else none

/-- The `str.isdigit` character class on the characters of the C10
counterexample: ASCII digits plus `'²'` (U+00B2), which Python accepts
(`Numeric_Type=Digit`) although `int` rejects it. -/
def isdigSup (c : Char) : Bool :=
  c.isDigit || c == '²'

/-- Python `str(n)` for a nonnegative integer: most-significant-first decimal
digits, no leading zeros. -/
def natToStr (n : ℕ) : String :=
  if n = 0 then "0"
  else String.mk ((Nat.digits 10 n).reverse.map fun d => Char.ofNat (48 + d))

/-- `_nuevo_id` from `app.py` (lines 404-411), parametrized by the runtime's
character classification: `"1"` on an empty table; otherwise
`max(int(x) for x in ids if str(x).isdigit())` plus one, as a decimal string.
The `except ValueError: mx = 0` branch (giving `str(0 + 1) = "1"`) is reached
both when the generator is empty (`max` raises) and when `int` raises on an
`isdigit` id whose characters are not all decimal, e.g. `'²'`; in the
remaining branch every value is `some`, so `Option.getD 0` is exact. -/
def nuevo_id (isdig : Char → Bool) (decVal : Char → Option ℕ) (ids : List String) : String :=
  if ids.isEmpty then "1"
  else if ((ids.filter fun x => isdigitStr isdig x).map (strToNat decVal)) = []
      ∨ none ∈ ((ids.filter fun x => isdigitStr isdig x).map (strToNat decVal)) then "1"
  else natToStr (((((ids.filter fun x => isdigitStr isdig x).map (strToNat decVal))).map
      fun o => o.getD 0).foldl max 0 + 1)

/-- The exceptions `egfr_ckdepi_2021` can raise on nonpositive creatinine. -/
inductive PyExn where
  | zeroDivisionError
  | typeError
  deriving DecidableEq

/-- The CKD-EPI 2021 expression of `egfr_ckdepi_2021` (`app.py` line 87), for
positive creatinine:
`142 * min(scr/K, 1)**a * max(scr/K, 1)**-1.200 * 0.9938**age`, times `1.012`
for female sex, with `K = 0.7 / 0.9` and `a = -0.241 / -0.302`. -/
noncomputable def egfr_raw (scr : ℝ) (age : ℕ) (female : Bool) : ℝ :=
  142 * (min (scr / (if female then 0.7 else 0.9)) 1) ^ (if female then (-0.241 : ℝ) else (-0.302 : ℝ))
    * (max (scr / (if female then 0.7 else 0.9)) 1) ^ (-1.2 : ℝ)
    * (0.9938 : ℝ) ^ age * (if female then 1.012 else 1)

/-- `egfr_ckdepi_2021` from `app.py`: `float(np.round(egfr, 1))` for positive
creatinine. The function has no input guard: at `scr = 0` Python raises
`ZeroDivisionError` (`0.0 ** negative`), and for `scr < 0` the non-integer
power of a negative base yields a complex number that `float()` rejects with a
`TypeError`; both exceptional outcomes are modelled as `Except.error`. -/
noncomputable def egfr_ckdepi_2021 (scr : ℝ) (age : ℕ) (female : Bool) : Except PyExn ℝ :=
  if 0 < scr then Except.ok (round1 (egfr_raw scr age female))
  else if scr = 0 then Except.error PyExn.zeroDivisionError
  else Except.error PyExn.typeError

/-! ## Generic lemmas about the Python rounding modes -/

theorem floor_le_roundHalfEven {α : Type} [LinearOrderedField α] [FloorRing α] (x : α) :
    ⌊x⌋ ≤ roundHalfEven x := by
  unfold roundHalfEven
  split_ifs <;> omega

theorem roundHalfEven_le_floor_add_one {α : Type} [LinearOrderedField α] [FloorRing α] (x : α) :
    roundHalfEven x ≤ ⌊x⌋ + 1 := by
  unfold roundHalfEven
  split_ifs <;> omega

theorem roundHalfEven_intCast {α : Type} [LinearOrderedField α] [FloorRing α] (n : ℤ) :
    roundHalfEven (n : α) = n := by
  unfold roundHalfEven
  rw [Int.floor_intCast]
  norm_num

theorem roundHalfEven_mono {α : Type} [LinearOrderedField α] [FloorRing α] {x y : α}
    (h : x ≤ y) : roundHalfEven x ≤ roundHalfEven y := by
  rcases lt_or_eq_of_le (Int.floor_le_floor h) with hf | hf
  · have h1 := roundHalfEven_le_floor_add_one x
    have h2 := floor_le_roundHalfEven y
    omega
  · unfold roundHalfEven
    rw [← hf]
    split_ifs <;> first | omega | linarith

theorem abs_roundHalfEven_sub_le {α : Type} [LinearOrderedField α] [FloorRing α] (x : α) :
    |(roundHalfEven x : α) - x| ≤ 1/2 := by
  have h1 : (⌊x⌋ : α) ≤ x := Int.floor_le x
  have h2 : x < ⌊x⌋ + 1 := Int.lt_floor_add_one x
  rw [abs_le]
  unfold roundHalfEven
  split_ifs <;> constructor <;> push_cast <;> linarith

theorem roundHalfEven_nonneg {α : Type} [LinearOrderedField α] [FloorRing α] {x : α}
    (h : 0 ≤ x) : 0 ≤ roundHalfEven x := by
  have h1 := floor_le_roundHalfEven x
  have h0 : 0 ≤ ⌊x⌋ := Int.floor_nonneg.mpr h
  omega

theorem roundHalfEven_eq_of_floor {α : Type} [LinearOrderedField α] [FloorRing α]
    (x : α) (n : ℤ) (hn : ⌊x⌋ = n) (h : x - n < 1/2) : roundHalfEven x = n := by
  unfold roundHalfEven
  rw [hn, if_pos h]

theorem roundHalfEven_eq_succ_of_floor {α : Type} [LinearOrderedField α] [FloorRing α]
    (x : α) (n : ℤ) (hn : ⌊x⌋ = n) (h : 1/2 < x - n) : roundHalfEven x = n + 1 := by
  unfold roundHalfEven
  rw [hn, if_neg (by linarith), if_pos h]

theorem round1_mono {α : Type} [LinearOrderedField α] [FloorRing α] {x y : α}
    (h : x ≤ y) : round1 x ≤ round1 y := by
  unfold round1
  have h1 := roundHalfEven_mono (mul_le_mul_of_nonneg_right h (by norm_num : (0:α) ≤ 10))
  have h2 : ((roundHalfEven (x * 10) : ℤ) : α) ≤ ((roundHalfEven (y * 10) : ℤ) : α) := by
    exact_mod_cast h1
  linarith

theorem abs_round1_sub_le {α : Type} [LinearOrderedField α] [FloorRing α] (x : α) :
    |round1 x - x| ≤ 1/20 := by
  unfold round1
  have h := abs_roundHalfEven_sub_le (x * 10)
  rw [show (roundHalfEven (x * 10) : α)/10 - x = ((roundHalfEven (x * 10) : α) - x * 10)/10
    from by ring, abs_div, abs_of_pos (show (0:α) < 10 by norm_num)]
  linarith

/-! ## Claims about the bolus calculator and the 500/1800 rules -/

/-- Claim C1: for every bolus-calculator input whose current glucose, after
conversion to mg/dL, is below 70, the suggested bolus dose is exactly 0 units
(the hypoglycemia branch also emits a warning in the UI), regardless of
carbohydrate grams, ICR, CF and target glucose. -/
theorem c1_bolo_cero_hipoglucemia (v : ℚ) (mmol : Bool) (carbs icr cf g_obj : ℚ)
    (h : to_mgdl_val v mmol < 70) :
    dosis_bolo carbs icr cf (to_mgdl_val v mmol) g_obj = 0 := by
  unfold dosis_bolo
  rw [if_pos h]

/-- Witness for C1 at 3 mmol/L (= 54 mg/dL), carbs 45 g, ICR 10, CF 50,
target 110. -/
theorem c1_witness :
    to_mgdl_val 3 true < 70 ∧ dosis_bolo 45 10 50 (to_mgdl_val 3 true) 110 = 0 := by
  have hv : to_mgdl_val 3 true = 54 := by
    unfold to_mgdl_val mmoll_to_mgdl
    rw [if_pos rfl, show ((3:ℚ) * 18) = ((54:ℤ):ℚ) from by norm_num, roundHalfEven_intCast]
    norm_num
  refine ⟨by rw [hv]; norm_num, c1_bolo_cero_hipoglucemia 3 true 45 10 50 110 (by rw [hv]; norm_num)⟩

/-- Claim C5: for current glucose ≥ 70 mg/dL, ICR > 0, CF > 0 (and the form's
nonnegative carbohydrate grams), the suggested dose equals
`max(0, carbs/ICR) + max(0, (current - target)/CF)` rounded to the nearest
0.5 unit; it is never negative, and it never falls below the rounded
carbohydrate-driven dose (the correction term never subtracts). -/
theorem c5_bolo_formula (carbs icr cf g t : ℚ)
    (hg : 70 ≤ g) (hicr : 0 < icr) (hcf : 0 < cf) (hcarbs : 0 ≤ carbs) :
    dosis_bolo carbs icr cf g t
        = (roundHalfEven ((max 0 (carbs / icr) + max 0 ((g - t) / cf)) * 2) : ℚ) / 2
      ∧ 0 ≤ dosis_bolo carbs icr cf g t
      ∧ (roundHalfEven ((carbs / icr) * 2) : ℚ) / 2 ≤ dosis_bolo carbs icr cf g t := by
  have hng : ¬ g < 70 := not_lt.mpr hg
  have hci : 0 ≤ carbs / icr := div_nonneg hcarbs hicr.le
  have hsum : 0 ≤ carbs / icr + max 0 ((g - t) / cf) := add_nonneg hci (le_max_left 0 _)
  have hmax : max 0 (carbs / icr + max 0 ((g - t) / cf))
      = carbs / icr + max 0 ((g - t) / cf) := max_eq_right hsum
  have hone : max 0 (carbs / icr) = carbs / icr := max_eq_right hci
  unfold dosis_bolo
  rw [if_neg hng, if_pos hicr, if_pos hcf, hmax, hone]
  refine ⟨rfl, ?_, ?_⟩
  · have h0 := roundHalfEven_nonneg (x := (carbs / icr + max 0 ((g - t) / cf)) * 2)
      (by positivity)
    have h0q : (0:ℚ) ≤ (roundHalfEven ((carbs / icr + max 0 ((g - t) / cf)) * 2) : ℚ) := by
      exact_mod_cast h0
    linarith
  · have hmono := roundHalfEven_mono (x := (carbs / icr) * 2)
      (y := (carbs / icr + max 0 ((g - t) / cf)) * 2)
      (by nlinarith [le_max_left (0:ℚ) ((g - t) / cf)])
    have hq : ((roundHalfEven ((carbs / icr) * 2) : ℤ) : ℚ)
        ≤ ((roundHalfEven ((carbs / icr + max 0 ((g - t) / cf)) * 2) : ℤ) : ℚ) := by
      exact_mod_cast hmono
    linarith

/-- Witness for C5 at the spec's worked example: carbs 45 g, ICR 16.7, CF 60,
current 200, target 110. -/
theorem c5_witness :
    (70 ≤ (200:ℚ)) ∧ (0 < (167:ℚ)/10) ∧ (0 < (60:ℚ)) ∧ (0 ≤ (45:ℚ))
    ∧ (dosis_bolo 45 (167/10) 60 200 110
        = (roundHalfEven ((max 0 ((45:ℚ) / (167/10)) + max 0 (((200:ℚ) - 110) / 60)) * 2) : ℚ) / 2
      ∧ 0 ≤ dosis_bolo 45 (167/10) 60 200 110
      ∧ (roundHalfEven (((45:ℚ) / (167/10)) * 2) : ℚ) / 2 ≤ dosis_bolo 45 (167/10) 60 200 110) :=
  ⟨by norm_num, by norm_num, by norm_num, by norm_num,
    c5_bolo_formula 45 (167/10) 60 200 110 (by norm_num) (by norm_num) (by norm_num) (by norm_num)⟩

/-- Claim C8: with user-supplied ICR = 0 (resp. CF = 0) the calculator derives
ICR = 500/TDD rounded to one decimal and CF = 1800/TDD rounded to a whole
number, and for TDD ≤ 0 both derivations return 0 instead of dividing. -/
theorem c8_icr_cf_derivation (t : ℚ) :
    (0 < t → derive_icr 0 t = round1 (500 / t)
        ∧ derive_cf 0 t = (roundHalfEven ((1800:ℚ) / t) : ℚ))
    ∧ (t ≤ 0 → derive_icr 0 t = 0 ∧ derive_cf 0 t = 0) := by
  constructor
  · intro h
    unfold derive_icr derive_cf
    rw [if_pos rfl, if_pos h, if_pos rfl, if_pos h]
    exact ⟨rfl, rfl⟩
  · intro h
    have hn : ¬ 0 < t := not_lt.mpr h
    unfold derive_icr derive_cf
    rw [if_pos rfl, if_neg hn, if_pos rfl, if_neg hn]
    exact ⟨rfl, rfl⟩

/-- Witness for C8 at TDD = 30 (positive branch) and TDD = -5 (guard branch). -/
theorem c8_witness :
    (derive_icr 0 30 = round1 ((500:ℚ) / 30) ∧ derive_cf 0 30 = (roundHalfEven ((1800:ℚ) / 30) : ℚ))
    ∧ (derive_icr 0 (-5) = 0 ∧ derive_cf 0 (-5) = 0) :=
  ⟨(c8_icr_cf_derivation 30).1 (by norm_num), (c8_icr_cf_derivation (-5)).2 (by norm_num)⟩

/-! ## Claims about the unit conversions -/

/-- Counterexample for C9: 100 mg/dL converts to 5.6 mmol/L and converts back
to 101 mg/dL, an error of 1.0 mg/dL, far outside the claimed ±0.1 mg/dL. -/
theorem c9_counterexample :
    mmoll_to_mgdl (mgdl_to_mmoll 100) = 101
    ∧ ¬ (|mmoll_to_mgdl (mgdl_to_mmoll 100) - 100| ≤ 0.1) := by
  have h1 : mgdl_to_mmoll 100 = 28/5 := by
    unfold mgdl_to_mmoll round1
    rw [roundHalfEven_eq_succ_of_floor ((100:ℚ)/18*10) 55 (by norm_num) (by norm_num)]
    norm_num
  have h2 : mmoll_to_mgdl (28/5) = 101 := by
    unfold mmoll_to_mgdl
    rw [roundHalfEven_eq_succ_of_floor ((28:ℚ)/5*18) 100 (by norm_num) (by norm_num)]
    norm_num
  rw [h1, h2]
  norm_num

/-- Claim C9 as amended: the mg/dL → mmol/L → mg/dL round trip reproduces the
original value within ±1.4 mg/dL (one decimal of mmol/L resolution is 1.8
mg/dL wide, so ±0.1 mg/dL is unachievable; the worst case is bounded by
18·(1/20) + 1/2). -/
theorem c9_amended_roundtrip_bound (v : ℚ) :
    |mmoll_to_mgdl (mgdl_to_mmoll v) - v| ≤ 1.4 := by
  have h1 : |mgdl_to_mmoll v - v / 18| ≤ 1/20 := by
    unfold mgdl_to_mmoll
    exact abs_round1_sub_le (v / 18)
  have h2 : |(roundHalfEven (mgdl_to_mmoll v * 18) : ℚ) - mgdl_to_mmoll v * 18| ≤ 1/2 :=
    abs_roundHalfEven_sub_le _
  have h3 : |mgdl_to_mmoll v * 18 - v| ≤ 18/20 := by
    rw [show mgdl_to_mmoll v * 18 - v = (mgdl_to_mmoll v - v/18) * 18 from by ring,
      abs_mul, abs_of_pos (show (0:ℚ) < 18 by norm_num)]
    linarith
  unfold mmoll_to_mgdl
  calc |(roundHalfEven (mgdl_to_mmoll v * 18) : ℚ) - v|
      ≤ |(roundHalfEven (mgdl_to_mmoll v * 18) : ℚ) - mgdl_to_mmoll v * 18|
        + |mgdl_to_mmoll v * 18 - v| := abs_sub_le _ _ _
    _ ≤ 1/2 + 18/20 := add_le_add h2 h3
    _ ≤ 1.4 := by norm_num

/-! ## Claims about the recommendation engine -/

theorem mem_ite_list {c : Prop} [Decidable c] {a b : Recom} :
    (a ∈ if c then [b] else ([] : List Recom)) ↔ c ∧ a = b := by
  split_ifs with hc <;> simp [hc]

theorem mem_ite_list2 {c : Prop} [Decidable c] {a b1 b2 : Recom} :
    (a ∈ if c then [b1] else [b2]) ↔ (c ∧ a = b1) ∨ (¬ c ∧ a = b2) := by
  split_ifs with hc <;> simp [hc]

theorem mem_ite_list3 {c1 c2 : Prop} [Decidable c1] [Decidable c2] {a b1 b2 b3 : Recom} :
    (a ∈ if c1 then [b1] else if c2 then [b2] else [b3])
      ↔ (c1 ∧ a = b1) ∨ (¬ c1 ∧ c2 ∧ a = b2) ∨ (¬ c1 ∧ ¬ c2 ∧ a = b3) := by
  split_ifs with h1 h2 <;> simp [*]

/-- The renal metformin-status entry selected by the eGFR trichotomy is always
in the DM2 recommendation list. -/
theorem metformina_status_mem (a1c gl_ay gl_pp : Option ℚ) (egfr : ℚ)
    (ckd ascvd ic : Bool) (imc : Option ℚ) (cat : UacrCat) (mmol : Bool) (ppm meta : ℚ) :
    (if 45 ≤ egfr then Recom.metformina_plena
     else if 30 ≤ egfr ∧ egfr < 45 then Recom.metformina_restringida
     else Recom.metformina_contraindicada)
      ∈ recomendacion_farmacos Dx.DM2 a1c gl_ay gl_pp egfr ckd ascvd ic imc cat mmol ppm meta := by
  unfold recomendacion_farmacos
  rw [if_neg (by decide : ¬ (Dx.DM2 = Dx.DM1))]
  simp only [List.mem_append]
  refine Or.inl (Or.inl (Or.inr ?_))
  split_ifs <;> simp

/-- In the DM2 branch, the insulin-initiation entry is in the list exactly when
the `a1c > 10 or gl_ay >= 300` condition of line 577 holds. -/
theorem iniciar_insulina_mem_iff (a1c gl_ay gl_pp : Option ℚ) (egfr : ℚ)
    (ckd ascvd ic : Bool) (imc : Option ℚ) (cat : UacrCat) (mmol : Bool) (ppm meta : ℚ) :
    Recom.iniciar_insulina
        ∈ recomendacion_farmacos Dx.DM2 a1c gl_ay gl_pp egfr ckd ascvd ic imc cat mmol ppm meta
      ↔ (optPresentCmp a1c (fun v => decide (10 < v)) = true
        ∨ optPresentCmp gl_ay (fun v => decide (300 ≤ v)) = true) := by
  unfold recomendacion_farmacos
  rw [if_neg (by decide : ¬ (Dx.DM2 = Dx.DM1))]
  simp [List.mem_append, mem_ite_list, mem_ite_list2, mem_ite_list3]

/-- Claim C4: for an insulin-dependent (DM1) diagnosis the recommendation list
is exactly the single basal-bolo insulin entry, regardless of every other
input; all other logic is skipped by the early return. -/
theorem c4_dm1_insulina_unica (a1c gl_ay gl_pp : Option ℚ) (egfr : ℚ)
    (ckd ascvd ic : Bool) (imc : Option ℚ) (cat : UacrCat) (mmol : Bool) (ppm meta : ℚ) :
    recomendacion_farmacos Dx.DM1 a1c gl_ay gl_pp egfr ckd ascvd ic imc cat mmol ppm meta
      = [Recom.dm1_basal_bolo] := by
  unfold recomendacion_farmacos
  rw [if_pos rfl]

/-- Claim C2: for every non-insulin-dependent (DM2) input with eGFR < 30 the
list contains no entry recommending metformin use (neither full dose, nor the
30-44 restricted line, nor the low-risk metformin-first line) and contains the
`metformin contraindicated (eGFR < 30)` status entry; and the engine applies
the renal thresholds: full use when eGFR ≥ 45, restricted use when
30 ≤ eGFR < 45, contraindicated when eGFR < 30. -/
theorem c2_metformina_renal_gating (a1c gl_ay gl_pp : Option ℚ) (egfr : ℚ)
    (ckd ascvd ic : Bool) (imc : Option ℚ) (cat : UacrCat) (mmol : Bool) (ppm meta : ℚ) :
    (egfr < 30 →
      Recom.metformina_plena
          ∉ recomendacion_farmacos Dx.DM2 a1c gl_ay gl_pp egfr ckd ascvd ic imc cat mmol ppm meta
      ∧ Recom.metformina_restringida
          ∉ recomendacion_farmacos Dx.DM2 a1c gl_ay gl_pp egfr ckd ascvd ic imc cat mmol ppm meta
      ∧ Recom.bajo_riesgo_metformina_estilo
          ∉ recomendacion_farmacos Dx.DM2 a1c gl_ay gl_pp egfr ckd ascvd ic imc cat mmol ppm meta
      ∧ Recom.metformina_contraindicada
          ∈ recomendacion_farmacos Dx.DM2 a1c gl_ay gl_pp egfr ckd ascvd ic imc cat mmol ppm meta)
    ∧ (45 ≤ egfr →
      Recom.metformina_plena
          ∈ recomendacion_farmacos Dx.DM2 a1c gl_ay gl_pp egfr ckd ascvd ic imc cat mmol ppm meta)
    ∧ (30 ≤ egfr ∧ egfr < 45 →
      Recom.metformina_restringida
          ∈ recomendacion_farmacos Dx.DM2 a1c gl_ay gl_pp egfr ckd ascvd ic imc cat mmol ppm meta) := by
  have hstat := metformina_status_mem a1c gl_ay gl_pp egfr ckd ascvd ic imc cat mmol ppm meta
  refine ⟨?_, ?_, ?_⟩
  · intro h
    have h60 : decide (egfr < 60) = true := decide_eq_true (by linarith)
    have h45 : ¬ (45 ≤ egfr) := by linarith
    have h3045 : ¬ (30 ≤ egfr ∧ egfr < 45) := fun hc => absurd h (not_lt.mpr hc.1)
    unfold recomendacion_farmacos
    rw [if_neg (by decide : ¬ (Dx.DM2 = Dx.DM1)), if_neg h45, if_neg h3045, h60]
    simp [List.mem_append, mem_ite_list, mem_ite_list2]
  · intro h45
    rwa [if_pos h45] at hstat
  · intro h3045
    rwa [if_neg (not_le.mpr h3045.2), if_pos h3045] at hstat

/-- Witness for C2 at eGFR 20 (contraindicated arm), 50 (full-use arm) and 35
(restricted arm), with CKD, A1c 8, fasting 150, postprandial 190. -/
theorem c2_witness :
    (Recom.metformina_plena
        ∉ recomendacion_farmacos Dx.DM2 (some 8) (some 150) (some 190) 20 true false false
            (some 25) UacrCat.A1 false 180 7
    ∧ Recom.metformina_restringida
        ∉ recomendacion_farmacos Dx.DM2 (some 8) (some 150) (some 190) 20 true false false
            (some 25) UacrCat.A1 false 180 7
    ∧ Recom.bajo_riesgo_metformina_estilo
        ∉ recomendacion_farmacos Dx.DM2 (some 8) (some 150) (some 190) 20 true false false
            (some 25) UacrCat.A1 false 180 7
    ∧ Recom.metformina_contraindicada
        ∈ recomendacion_farmacos Dx.DM2 (some 8) (some 150) (some 190) 20 true false false
            (some 25) UacrCat.A1 false 180 7)
    ∧ Recom.metformina_plena
        ∈ recomendacion_farmacos Dx.DM2 (some 8) (some 150) (some 190) 50 true false false
            (some 25) UacrCat.A1 false 180 7
    ∧ Recom.metformina_restringida
        ∈ recomendacion_farmacos Dx.DM2 (some 8) (some 150) (some 190) 35 true false false
            (some 25) UacrCat.A1 false 180 7 :=
  ⟨(c2_metformina_renal_gating (some 8) (some 150) (some 190) 20 true false false
      (some 25) UacrCat.A1 false 180 7).1 (by norm_num),
   (c2_metformina_renal_gating (some 8) (some 150) (some 190) 50 true false false
      (some 25) UacrCat.A1 false 180 7).2.1 (by norm_num),
   (c2_metformina_renal_gating (some 8) (some 150) (some 190) 35 true false false
      (some 25) UacrCat.A1 false 180 7).2.2 (by norm_num)⟩

/-- Counterexample for C3: at A1c exactly 10 (which satisfies the claimed
`A1c >= 10` trigger) with fasting 150, the engine emits no insulin-initiation
entry at all, because the code tests `a1c > 10` strictly. -/
theorem c3_counterexample :
    ((10:ℚ) ≥ 10)
    ∧ Recom.iniciar_insulina
        ∉ recomendacion_farmacos Dx.DM2 (some 10) (some 150) (some 190) 90 false false false
            (some 25) UacrCat.A1 false 180 7 := by
  refine ⟨by norm_num, ?_⟩
  rw [iniciar_insulina_mem_iff]
  simp [optPresentCmp]
  norm_num

/-- Claim C3 as amended: for DM2 inputs with A1c strictly above 10 (the code
tests `a1c > 10`, not `>= 10`) or fasting glucose ≥ 300, the insulin-initiation
entry is the FIRST element of the recommendation list, but the engine does not
return early: the later renal branch still contributes its metformin-status
entry to the same list. -/
theorem c3_amended_insulina_primero_sin_retorno (a1c gl_ay gl_pp : Option ℚ) (egfr : ℚ)
    (ckd ascvd ic : Bool) (imc : Option ℚ) (cat : UacrCat) (mmol : Bool) (ppm meta : ℚ)
    (h : (∃ v, a1c = some v ∧ 10 < v) ∨ (∃ v, gl_ay = some v ∧ 300 ≤ v)) :
    (recomendacion_farmacos Dx.DM2 a1c gl_ay gl_pp egfr ckd ascvd ic imc cat mmol ppm meta).head?
        = some Recom.iniciar_insulina
    ∧ (Recom.metformina_plena
          ∈ recomendacion_farmacos Dx.DM2 a1c gl_ay gl_pp egfr ckd ascvd ic imc cat mmol ppm meta
      ∨ Recom.metformina_restringida
          ∈ recomendacion_farmacos Dx.DM2 a1c gl_ay gl_pp egfr ckd ascvd ic imc cat mmol ppm meta
      ∨ Recom.metformina_contraindicada
          ∈ recomendacion_farmacos Dx.DM2 a1c gl_ay gl_pp egfr ckd ascvd ic imc cat mmol ppm meta) := by
  have hcond : (optPresentCmp a1c (fun v => decide (10 < v))
      || optPresentCmp gl_ay (fun v => decide (300 ≤ v))) = true := by
    rw [Bool.or_eq_true]
    rcases h with ⟨v, hv, hlt⟩ | ⟨v, hv, hle⟩
    · left
      subst hv
      simpa [optPresentCmp] using hlt
    · right
      subst hv
      simpa [optPresentCmp] using hle
  constructor
  · conv_lhs => rw [recomendacion_farmacos]
    rw [if_neg (by decide : ¬ (Dx.DM2 = Dx.DM1)), if_pos hcond]
    simp
  · have hmem := metformina_status_mem a1c gl_ay gl_pp egfr ckd ascvd ic imc cat mmol ppm meta
    rcases le_or_lt 45 egfr with h45 | h45
    · left
      rwa [if_pos h45] at hmem
    · rcases le_or_lt 30 egfr with h30 | h30
      · right; left
        rwa [if_neg (not_le.mpr h45), if_pos ⟨h30, h45⟩] at hmem
      · right; right
        rwa [if_neg (not_le.mpr h45),
          if_neg (fun hc => absurd hc.1 (not_le.mpr h30))] at hmem

/-- Witness for the amended C3 at A1c 11, fasting 150, eGFR 90. -/
theorem c3_witness :
    (recomendacion_farmacos Dx.DM2 (some 11) (some 150) (some 190) 90 false false false
        (some 25) UacrCat.A1 false 180 7).head? = some Recom.iniciar_insulina
    ∧ (Recom.metformina_plena
          ∈ recomendacion_farmacos Dx.DM2 (some 11) (some 150) (some 190) 90 false false false
              (some 25) UacrCat.A1 false 180 7
      ∨ Recom.metformina_restringida
          ∈ recomendacion_farmacos Dx.DM2 (some 11) (some 150) (some 190) 90 false false false
              (some 25) UacrCat.A1 false 180 7
      ∨ Recom.metformina_contraindicada
          ∈ recomendacion_farmacos Dx.DM2 (some 11) (some 150) (some 190) 90 false false false
              (some 25) UacrCat.A1 false 180 7) :=
  c3_amended_insulina_primero_sin_retorno (some 11) (some 150) (some 190) 90 false false false
    (some 25) UacrCat.A1 false 180 7 (Or.inl ⟨11, rfl, by norm_num⟩)

/-! ## Claim about the profile id generator -/

theorem char_ofNat_digit_isDigit : ∀ d < 10, (Char.ofNat (48 + d)).isDigit = true := by decide

theorem decDigitVal_ascii : ∀ d < 10, decDigitVal (Char.ofNat (48 + d)) = some d := by decide

theorem self_le_foldl_max (l : List ℕ) (a : ℕ) : a ≤ l.foldl max a := by
  induction l generalizing a with
  | nil => exact le_refl a
  | cons x xs ih => exact le_trans (le_max_left a x) (ih (max a x))

theorem le_foldl_max : ∀ (l : List ℕ) (a b : ℕ), b ∈ l → b ≤ l.foldl max a := by
  intro l
  induction l with
  | nil => intro a b h; cases h
  | cons x xs ih =>
    intro a b h
    rcases List.mem_cons.mp h with rfl | h2
    · exact le_trans (le_max_right a b) (self_le_foldl_max xs (max a b))
    · exact ih (max a x) b h2

theorem foldr_digits_eq_ofDigits (decVal : Char → Option ℕ)
    (hval : ∀ d < 10, decVal (Char.ofNat (48 + d)) = some d) :
    ∀ L : List ℕ, (∀ d ∈ L, d < 10) →
      L.foldr
        (fun d acc =>
          match acc, decVal (Char.ofNat (48 + d)) with
          | some n, some e => some (10 * n + e)
          | _, _ => none)
        (some 0)
        = some (Nat.ofDigits 10 L) := by
  intro L
  induction L with
  | nil => intro _; rfl
  | cons d L ih =>
    intro hL
    rw [List.foldr_cons, ih (fun x hx => hL x (List.mem_cons_of_mem _ hx)),
      hval d (hL d (List.mem_cons_self _ _)), Nat.ofDigits_cons]
    exact congrArg some (by omega)

/-- `int` applied to the decimal string of `n` recovers `n`, for any
digit-value lookup that is correct on the ASCII digits. -/
theorem strToNat_natToStr (decVal : Char → Option ℕ)
    (hval : ∀ d < 10, decVal (Char.ofNat (48 + d)) = some d) (n : ℕ) :
    strToNat decVal (natToStr n) = some n := by
  unfold natToStr
  split_ifs with h
  · subst h
    show strToNat decVal "0" = some 0
    unfold strToNat
    have h0 : decVal (Char.ofNat 48) = some 0 := by simpa using hval 0 (by norm_num)
    show List.foldl _ (some 0) ['0'] = some 0
    simp only [List.foldl_cons, List.foldl_nil]
    rw [show ('0' : Char) = Char.ofNat 48 from rfl, h0]
  · show ((Nat.digits 10 n).reverse.map fun d => Char.ofNat (48 + d)).foldl
        (fun acc c =>
          match acc, decVal c with
          | some m, some d => some (10 * m + d)
          | _, _ => none)
        (some 0) = some n
    rw [List.map_reverse, List.foldl_reverse, List.foldr_map]
    have h1 := foldr_digits_eq_ofDigits decVal hval (Nat.digits 10 n)
      (fun d hd => Nat.digits_lt_base (by norm_num) hd)
    rw [Nat.ofDigits_digits] at h1
    exact h1

/-- The decimal string of `n` is `isdigit`, for any character class containing
the ASCII digits. -/
theorem isdigitStr_natToStr (isdig : Char → Bool)
    (hdig : ∀ d < 10, isdig (Char.ofNat (48 + d)) = true) (n : ℕ) :
    isdigitStr isdig (natToStr n) = true := by
  unfold natToStr
  split_ifs with h
  · show isdigitStr isdig "0" = true
    unfold isdigitStr
    have h0 : isdig (Char.ofNat 48) = true := by simpa using hdig 0 (by norm_num)
    show (!([('0' : Char)]).isEmpty && ([('0' : Char)]).all isdig) = true
    rw [show ('0' : Char) = Char.ofNat 48 from rfl]
    simp [h0]
  · show (!((Nat.digits 10 n).reverse.map fun d => Char.ofNat (48 + d)).isEmpty
      && ((Nat.digits 10 n).reverse.map fun d => Char.ofNat (48 + d)).all isdig) = true
    rw [Bool.and_eq_true]
    constructor
    · simp [List.isEmpty_iff, Nat.digits_ne_nil_iff_ne_zero, h]
    · rw [List.all_eq_true]
      intro c hc
      simp only [List.mem_map, List.mem_reverse] at hc
      obtain ⟨d, hd, rfl⟩ := hc
      exact hdig d (Nat.digits_lt_base (by norm_num) hd)

theorem natToStr_one : natToStr 1 = "1" := by
  unfold natToStr
  rw [if_neg one_ne_zero, Nat.digits_def' (by norm_num : 1 < 10) (by norm_num : 0 < 1)]
  norm_num

/-- The caught-`ValueError` branch of `_nuevo_id`: an empty `max` generator or
a failing `int` both yield `"1"`. -/
theorem nuevo_id_valueError (isdig : Char → Bool) (decVal : Char → Option ℕ)
    (ids : List String)
    (h : ((ids.filter fun x => isdigitStr isdig x).map (strToNat decVal)) = []
      ∨ none ∈ ((ids.filter fun x => isdigitStr isdig x).map (strToNat decVal))) :
    nuevo_id isdig decVal ids = "1" := by
  unfold nuevo_id
  by_cases he : ids.isEmpty = true
  · rw [if_pos he]
  · rw [if_neg he, if_pos h]

/-- The normal branch of `_nuevo_id`: at least one `isdigit` id and every one
of them parses. -/
theorem nuevo_id_ok (isdig : Char → Bool) (decVal : Char → Option ℕ)
    (ids : List String)
    (h : ¬ (((ids.filter fun x => isdigitStr isdig x).map (strToNat decVal)) = []
      ∨ none ∈ ((ids.filter fun x => isdigitStr isdig x).map (strToNat decVal)))) :
    nuevo_id isdig decVal ids
      = natToStr (((((ids.filter fun x => isdigitStr isdig x).map (strToNat decVal))).map
          fun o => o.getD 0).foldl max 0 + 1) := by
  unfold nuevo_id
  have he : ¬ (ids.isEmpty = true) := by
    intro he
    rw [List.isEmpty_iff] at he
    exact h (Or.inl (by simp [he]))
  rw [if_neg he, if_neg h]

/-- Counterexample for C10: on the table with ids `1` and `²` (the superscript
two, which Python's `str.isdigit` accepts but `int` rejects with a caught
`ValueError`), `_nuevo_id` returns `"1"`, which IS string-equal to an id
already present — the claimed freshness fails. -/
theorem c10_counterexample :
    nuevo_id isdigSup decDigitVal ["1", "²"] = "1" ∧ "1" ∈ (["1", "²"] : List String) := by
  constructor
  · apply nuevo_id_valueError
    right
    decide
  · simp

/-- Claim C10 as amended: for any character classification that is correct on
the ASCII digits, `_nuevo_id` returns `"1"` on an empty table, returns `"1"`
whenever the `max` generator is empty (no `isdigit` id) or some `isdigit` id
makes `int` raise (the caught-`ValueError` path, where freshness can fail),
and otherwise returns the decimal string of one plus the maximum of the parsed
values; whenever `int` raises on no `isdigit` id — in particular on every
table of ASCII ids — the returned id is never string-equal to an id already
present, so creating a new profile never overwrites an existing row. -/
theorem c10_nuevo_id_amended (isdig : Char → Bool) (decVal : Char → Option ℕ)
    (hdig : ∀ d < 10, isdig (Char.ofNat (48 + d)) = true)
    (hval : ∀ d < 10, decVal (Char.ofNat (48 + d)) = some d)
    (ids : List String) :
    (ids = [] → nuevo_id isdig decVal ids = "1")
    ∧ (((ids.filter fun x => isdigitStr isdig x).map (strToNat decVal) = []
        ∨ none ∈ (ids.filter fun x => isdigitStr isdig x).map (strToNat decVal)) →
        nuevo_id isdig decVal ids = "1")
    ∧ (¬ ((ids.filter fun x => isdigitStr isdig x).map (strToNat decVal) = []
          ∨ none ∈ (ids.filter fun x => isdigitStr isdig x).map (strToNat decVal)) →
        nuevo_id isdig decVal ids
          = natToStr ((((ids.filter fun x => isdigitStr isdig x).map
              (strToNat decVal)).map fun o => o.getD 0).foldl max 0 + 1))
    ∧ (none ∉ (ids.filter fun x => isdigitStr isdig x).map (strToNat decVal) →
        ∀ x ∈ ids, nuevo_id isdig decVal ids ≠ x) := by
  refine ⟨?_, nuevo_id_valueError isdig decVal ids, nuevo_id_ok isdig decVal ids, ?_⟩
  · intro h; subst h; rfl
  · intro hnone x hx heq
    have hres_digit : isdigitStr isdig (nuevo_id isdig decVal ids) = true := by
      by_cases hv : ((ids.filter fun x => isdigitStr isdig x).map (strToNat decVal)) = []
      · rw [nuevo_id_valueError isdig decVal ids (Or.inl hv), ← natToStr_one]
        exact isdigitStr_natToStr isdig hdig 1
      · rw [nuevo_id_ok isdig decVal ids (by push_neg; exact ⟨hv, hnone⟩)]
        exact isdigitStr_natToStr isdig hdig _
    by_cases hisd : isdigitStr isdig x = true
    · have hxval : strToNat decVal x
          ∈ (ids.filter fun x => isdigitStr isdig x).map (strToNat decVal) :=
        List.mem_map_of_mem _ (List.mem_filter.mpr ⟨hx, hisd⟩)
      obtain ⟨k, hk⟩ : ∃ k, strToNat decVal x = some k := by
        cases hx2 : strToNat decVal x with
        | none => exact absurd (hx2 ▸ hxval) hnone
        | some k => exact ⟨k, rfl⟩
      have hkmem : k ∈ ((ids.filter fun x => isdigitStr isdig x).map
          (strToNat decVal)).map fun o => o.getD 0 := by
        have hm := List.mem_map_of_mem (fun o : Option ℕ => o.getD 0) hxval
        rwa [hk] at hm
      have hle := le_foldl_max _ 0 _ hkmem
      have hvne : ((ids.filter fun x => isdigitStr isdig x).map (strToNat decVal)) ≠ [] :=
        List.ne_nil_of_mem hxval
      have hres := nuevo_id_ok isdig decVal ids (by push_neg; exact ⟨hvne, hnone⟩)
      have hparse : strToNat decVal x
          = some ((((ids.filter fun x => isdigitStr isdig x).map
              (strToNat decVal)).map fun o => o.getD 0).foldl max 0 + 1) := by
        rw [← heq, hres, strToNat_natToStr decVal hval]
      rw [hk] at hparse
      have hk2 := Option.some.inj hparse
      omega
    · rw [heq] at hres_digit
      exact hisd hres_digit

/-- Witness for the amended C10 with the ASCII classification: on ids `7` and
`abc` (where `int` never raises) the fresh id collides with neither, and the
empty table yields `1`. -/
theorem c10_witness :
    nuevo_id Char.isDigit decDigitVal ["7", "abc"] ≠ "7"
    ∧ nuevo_id Char.isDigit decDigitVal ["7", "abc"] ≠ "abc"
    ∧ nuevo_id Char.isDigit decDigitVal [] = "1" :=
  ⟨(c10_nuevo_id_amended Char.isDigit decDigitVal char_ofNat_digit_isDigit decDigitVal_ascii
      ["7", "abc"]).2.2.2 (by decide) "7" (by simp),
   (c10_nuevo_id_amended Char.isDigit decDigitVal char_ofNat_digit_isDigit decDigitVal_ascii
      ["7", "abc"]).2.2.2 (by decide) "abc" (by simp),
   (c10_nuevo_id_amended Char.isDigit decDigitVal char_ofNat_digit_isDigit decDigitVal_ascii
      []).1 rfl⟩

/-! ## Claims about the CKD-EPI 2021 eGFR computation -/

/-- `(9/7) ^ 0.302 ≥ 153/142 (> 1.012)`, by raising both sides to the 500th
power and comparing the resulting integers. -/
theorem rpow_key : (153/142 : ℝ) ≤ (9/7 : ℝ) ^ (0.302 : ℝ) := by
  have hb : (0:ℝ) < (9/7:ℝ) ^ (0.302:ℝ) := Real.rpow_pos_of_pos (by norm_num) _
  have hpow : ((9/7:ℝ) ^ (0.302:ℝ)) ^ (500:ℕ) = (9/7:ℝ) ^ (151:ℕ) := by
    rw [← Real.rpow_natCast ((9/7:ℝ) ^ (0.302:ℝ)) 500,
      ← Real.rpow_mul (by norm_num : (0:ℝ) ≤ 9/7),
      ← Real.rpow_natCast ((9:ℝ)/7) 151]
    norm_num
  have hnat : (153:ℕ)^500 * 7^151 ≤ 9^151 * 142^500 := by norm_num
  have hq : ((153:ℝ)/142)^(500:ℕ) ≤ ((9:ℝ)/7)^(151:ℕ) := by
    rw [div_pow, div_pow, div_le_div_iff₀ (by positivity) (by positivity)]
    exact_mod_cast hnat
  have h500 : ((153:ℝ)/142)^(500:ℕ) ≤ ((9/7:ℝ) ^ (0.302:ℝ))^(500:ℕ) := by
    rw [hpow]; exact hq
  exact le_of_pow_le_pow_left₀ (by norm_num) hb.le h500

theorem rpow_sevenNinths (e : ℝ) : (7/9 : ℝ) ^ e = ((9/7 : ℝ) ^ e)⁻¹ := by
  rw [show (7/9 : ℝ) = ((9/7:ℝ))⁻¹ from by norm_num,
    Real.inv_rpow (by norm_num : (0:ℝ) ≤ 9/7)]

/-- The sex-dependent factor of the CKD-EPI 2021 formula: on every positive
creatinine the female factor (1.012 included) is at most the male factor. -/
theorem egfr_factor_le (t : ℝ) (ht : 0 < t) :
    1.012 * ((min (t/0.7) 1) ^ (-0.241 : ℝ) * (max (t/0.7) 1) ^ (-1.2 : ℝ))
      ≤ (min (t/0.9) 1) ^ (-0.302 : ℝ) * (max (t/0.9) 1) ^ (-1.2 : ℝ) := by
  have h97 : (0:ℝ) < 9/7 := by norm_num
  have hkey : (1.012 : ℝ) ≤ (9/7:ℝ) ^ (0.302:ℝ) := le_trans (by norm_num) rpow_key
  have ht7 : (0:ℝ) < t/0.7 := by positivity
  have ht9 : (0:ℝ) < t/0.9 := by positivity
  have hrel : t/0.9 = (t/0.7) * (7/9) := by ring
  rcases le_or_lt t 0.7 with h7 | h7
  · have hu1 : t/0.7 ≤ 1 := by rw [div_le_one (by norm_num : (0:ℝ) < 0.7)]; linarith
    have hv1 : t/0.9 ≤ 1 := by rw [div_le_one (by norm_num : (0:ℝ) < 0.9)]; linarith
    rw [min_eq_left hu1, min_eq_left hv1, max_eq_right hu1, max_eq_right hv1,
      Real.one_rpow, mul_one, mul_one]
    rw [hrel, Real.mul_rpow ht7.le (by norm_num : (0:ℝ) ≤ 7/9), rpow_sevenNinths,
      Real.rpow_neg h97.le, inv_inv]
    have hmono : (t/0.7) ^ (-0.241 : ℝ) ≤ (t/0.7) ^ (-0.302 : ℝ) :=
      Real.rpow_le_rpow_of_exponent_ge ht7 hu1 (by norm_num)
    have hpos : (0:ℝ) ≤ (t/0.7) ^ (-0.241 : ℝ) := (Real.rpow_pos_of_pos ht7 _).le
    calc 1.012 * (t/0.7) ^ (-0.241:ℝ)
        ≤ (9/7:ℝ) ^ (0.302:ℝ) * (t/0.7) ^ (-0.302:ℝ) :=
          mul_le_mul hkey hmono hpos (le_trans (by norm_num) hkey)
      _ = (t/0.7) ^ (-0.302:ℝ) * (9/7:ℝ) ^ (0.302:ℝ) := mul_comm _ _
  · rcases le_or_lt t 0.9 with h9 | h9
    · have hu1 : (1:ℝ) ≤ t/0.7 := by rw [le_div_iff₀ (by norm_num : (0:ℝ) < 0.7)]; linarith
      have hv1 : t/0.9 ≤ 1 := by rw [div_le_one (by norm_num : (0:ℝ) < 0.9)]; linarith
      rw [min_eq_right hu1, min_eq_left hv1, max_eq_left hu1, max_eq_right hv1,
        Real.one_rpow, one_mul, Real.one_rpow, mul_one]
      rw [hrel, Real.mul_rpow ht7.le (by norm_num : (0:ℝ) ≤ 7/9), rpow_sevenNinths,
        Real.rpow_neg h97.le, inv_inv]
      have hmono : (t/0.7) ^ (-1.2 : ℝ) ≤ (t/0.7) ^ (-0.302 : ℝ) :=
        Real.rpow_le_rpow_of_exponent_le hu1 (by norm_num)
      have hpos : (0:ℝ) ≤ (t/0.7) ^ (-1.2 : ℝ) := (Real.rpow_pos_of_pos ht7 _).le
      calc 1.012 * (t/0.7) ^ (-1.2:ℝ)
          ≤ (9/7:ℝ) ^ (0.302:ℝ) * (t/0.7) ^ (-0.302:ℝ) :=
            mul_le_mul hkey hmono hpos (le_trans (by norm_num) hkey)
        _ = (t/0.7) ^ (-0.302:ℝ) * (9/7:ℝ) ^ (0.302:ℝ) := mul_comm _ _
    · have hu1 : (1:ℝ) ≤ t/0.7 := by rw [le_div_iff₀ (by norm_num : (0:ℝ) < 0.7)]; linarith
      have hv1 : (1:ℝ) ≤ t/0.9 := by rw [le_div_iff₀ (by norm_num : (0:ℝ) < 0.9)]; linarith
      rw [min_eq_right hu1, min_eq_right hv1, max_eq_left hu1, max_eq_left hv1,
        Real.one_rpow, one_mul, Real.one_rpow, one_mul]
      have hrel2 : t/0.7 = (t/0.9) * (9/7) := by ring
      rw [hrel2, Real.mul_rpow ht9.le (by norm_num : (0:ℝ) ≤ 9/7)]
      have hb : (0:ℝ) < (9/7:ℝ) ^ (1.2:ℝ) := Real.rpow_pos_of_pos h97 _
      have h1 : (1.012:ℝ) * (9/7:ℝ) ^ (-1.2:ℝ) ≤ 1 := by
        rw [Real.rpow_neg h97.le, ← div_eq_mul_inv, div_le_one hb]
        exact le_trans hkey
          (Real.rpow_le_rpow_of_exponent_le (by norm_num : (1:ℝ) ≤ 9/7) (by norm_num))
      have hp : (0:ℝ) < (t/0.9) ^ (-1.2:ℝ) := Real.rpow_pos_of_pos ht9 _
      calc 1.012 * ((t/0.9) ^ (-1.2:ℝ) * (9/7:ℝ) ^ (-1.2:ℝ))
          = (1.012 * (9/7:ℝ) ^ (-1.2:ℝ)) * (t/0.9) ^ (-1.2:ℝ) := by ring
        _ ≤ 1 * (t/0.9) ^ (-1.2:ℝ) := mul_le_mul_of_nonneg_right h1 hp.le
        _ = (t/0.9) ^ (-1.2:ℝ) := one_mul _

/-- On identical positive creatinine and age, the unrounded female CKD-EPI 2021
value never exceeds the male value. -/
theorem egfr_raw_female_le_male (scr : ℝ) (age : ℕ) (h : 0 < scr) :
    egfr_raw scr age true ≤ egfr_raw scr age false := by
  have hf := egfr_factor_le scr h
  have hc : (0:ℝ) ≤ 142 * (0.9938:ℝ) ^ age := by positivity
  unfold egfr_raw
  simp only [if_true, if_false, Bool.true_eq_false, Bool.false_eq_true, ite_true, ite_false]
  calc 142 * (min (scr/0.7) 1) ^ (-0.241:ℝ) * (max (scr/0.7) 1) ^ (-1.2:ℝ)
        * (0.9938:ℝ) ^ age * 1.012
      = (142 * (0.9938:ℝ) ^ age)
        * (1.012 * ((min (scr/0.7) 1) ^ (-0.241:ℝ) * (max (scr/0.7) 1) ^ (-1.2:ℝ))) := by
        ring
    _ ≤ (142 * (0.9938:ℝ) ^ age)
        * ((min (scr/0.9) 1) ^ (-0.302:ℝ) * (max (scr/0.9) 1) ^ (-1.2:ℝ)) :=
        mul_le_mul_of_nonneg_left hf hc
    _ = 142 * (min (scr/0.9) 1) ^ (-0.302:ℝ) * (max (scr/0.9) 1) ^ (-1.2:ℝ)
        * (0.9938:ℝ) ^ age * 1 := by ring

/-- Counterexample for C6: at creatinine 0.7 and age 0 the reported female
eGFR (143.7) is strictly below the male one (at least 153), refuting
`female ≥ male`. -/
theorem c6_counterexample :
    round1 (egfr_raw (7/10) 0 true) < round1 (egfr_raw (7/10) 0 false) := by
  have hfem : egfr_raw (7/10) 0 true = 143.704 := by
    unfold egfr_raw
    simp only [if_true, ite_true]
    rw [show (7:ℝ)/10 / 0.7 = 1 from by norm_num, min_self, max_self,
      Real.one_rpow, Real.one_rpow, pow_zero]
    norm_num
  have hmale : (153:ℝ) ≤ egfr_raw (7/10) 0 false := by
    unfold egfr_raw
    simp only [if_false, ite_false, Bool.false_eq_true]
    rw [show (7:ℝ)/10 / 0.9 = 7/9 from by norm_num,
      min_eq_left (by norm_num : (7:ℝ)/9 ≤ 1),
      max_eq_right (by norm_num : (7:ℝ)/9 ≤ 1),
      Real.one_rpow, pow_zero, rpow_sevenNinths,
      Real.rpow_neg (by norm_num : (0:ℝ) ≤ 9/7), inv_inv]
    nlinarith [rpow_key]
  have h1 : round1 (egfr_raw (7/10) 0 true) = 143.7 := by
    rw [hfem]
    unfold round1
    rw [show (143.704:ℝ) * 10 = 1437.04 from by norm_num,
      roundHalfEven_eq_of_floor (1437.04:ℝ) 1437 (by norm_num) (by norm_num)]
    norm_num
  have h153 : round1 (153:ℝ) = 153 := by
    unfold round1
    rw [show (153:ℝ) * 10 = ((1530:ℤ):ℝ) from by norm_num, roundHalfEven_intCast]
    norm_num
  have h2 : (153:ℝ) ≤ round1 (egfr_raw (7/10) 0 false) := by
    have hm := round1_mono (egfr_raw_female_le_male (7/10) 0 (by norm_num))
    have hm2 := round1_mono hmale
    rwa [h153] at hm2
  linarith

/-- Claim C6 as amended: for every positive creatinine and every age, the eGFR
computed with female sex is LESS THAN OR EQUAL to the male value on identical
inputs (the spec's claimed direction is reversed: the male constants K = 0.9,
a = -0.302 outweigh the female 1.012 multiplier). -/
theorem c6_amended_mujer_le_hombre (scr : ℝ) (age : ℕ) (h : 0 < scr) :
    egfr_ckdepi_2021 scr age true = Except.ok (round1 (egfr_raw scr age true))
    ∧ egfr_ckdepi_2021 scr age false = Except.ok (round1 (egfr_raw scr age false))
    ∧ round1 (egfr_raw scr age true) ≤ round1 (egfr_raw scr age false) := by
  refine ⟨?_, ?_, round1_mono (egfr_raw_female_le_male scr age h)⟩ <;>
    (unfold egfr_ckdepi_2021; rw [if_pos h])

/-- Witness for the amended C6 at creatinine 1, age 0. -/
theorem c6_witness :
    egfr_ckdepi_2021 1 0 true = Except.ok (round1 (egfr_raw 1 0 true))
    ∧ egfr_ckdepi_2021 1 0 false = Except.ok (round1 (egfr_raw 1 0 false))
    ∧ round1 (egfr_raw 1 0 true) ≤ round1 (egfr_raw 1 0 false) :=
  c6_amended_mujer_le_hombre 1 0 (by norm_num)

/-- Claim C7: `egfr_ckdepi_2021` has no guard for nonpositive creatinine — at
creatinine 0 the computation raises `ZeroDivisionError` (`0.0 ** negative`)
and at negative creatinine `float()` raises `TypeError` on the complex result,
instead of signalling a defined input-error value. -/
theorem c7_egfr_scr_no_positiva_excepcion :
    egfr_ckdepi_2021 0 55 false = Except.error PyExn.zeroDivisionError
    ∧ egfr_ckdepi_2021 (-1) 55 false = Except.error PyExn.typeError := by
  constructor <;> (unfold egfr_ckdepi_2021; norm_num)
